import Mathlib

/-!
Verification of the plan-execution engine of this repository against its
design document.  The engine (src/playwright_executor.py together with
src/element_helpers.py and src/page_helpers.py) interprets a step-based
navigation plan: it resolves text/symbol targets to page elements, allocates
form fields, detects login pages, and runs the step loop.

The embedding below models the pure logic of those functions directly from
the source.  Pages are modelled as lists of element records carrying the
attributes the source inspects (inner text, visibility, geometry, input
attributes); Playwright locator queries become list searches over those
records, and a click or fill on a visible, interactable element is assumed
to succeed (element actions on such elements only fail on driver faults,
which the source treats as exceptions of the surrounding try blocks).
Python string operations (`in`, `.lower()`, `.strip()`) are modelled
character-exactly on ASCII data.
-/

namespace PlanEngine

/-- Python str.lower on the ASCII strings this program manipulates. -/
def lowerChars (l : List Char) : List Char := l.map Char.toLower

/-- Whitespace test used by Python str.strip for the data at hand. -/
def isWS (c : Char) : Bool := c = ' ' || c = '\t' || c = '\n' || c = '\r'

/-- Python str.strip: drop leading and trailing whitespace. -/
def trimChars (l : List Char) : List Char :=
  ((l.dropWhile isWS).reverse.dropWhile isWS).reverse

/-- Contiguous-substring test: pat occurs somewhere inside s. -/
def infixChars (pat s : List Char) : Bool :=
  (List.range (s.length + 1)).any (fun i => pat.isPrefixOf (s.drop i))

/-- Python `pat in s` (case sensitive). -/
def strIn (pat s : String) : Bool := infixChars pat.toList s.toList

/-- Python `pat in s.lower()`: the pattern is used verbatim, only the subject
is lowercased, exactly as the source writes these tests. -/
def strInLower (pat s : String) : Bool := infixChars pat.toList (lowerChars s.toList)

/-- Python `s.strip().lower()` as a character list. -/
def normChars (s : String) : List Char := lowerChars (trimChars s.toList)

/-- Python str.lower as a String. -/
def lowerStr (s : String) : String := String.mk (lowerChars s.toList)

/-- Python `any(keyword in url for keyword in kws)`. -/
def anyKeyword (u : String) (kws : List String) : Bool := kws.any (fun k => strIn k u)

/-!
URL State Extractor: page_helpers.get_url_state (src/src/page_helpers.py,
lines 127-149).  The source reads only `page.url`, lowercases it and derives
each flag by keyword membership; it is modelled as a pure function of that
string.  The `path_parts` and `query_params` fields are mere string splits
never consulted by any flag and are omitted from the record.
-/

structure UrlState where
  url : String
  is_create : Bool
  is_view : Bool
  is_issue : Bool
  is_project : Bool
  is_settings : Bool
  is_login : Bool
deriving Repr, DecidableEq

/-- page_helpers.get_url_state, as a function of the location string. -/
def get_url_state (pageUrl : String) : UrlState :=
  let url := lowerStr pageUrl
  { url := url
  , is_create := anyKeyword url ["/new", "/create", "/add", "/edit"]
  , is_view := anyKeyword url ["/view", "/views"]
  , is_issue := anyKeyword url ["/issue", "/issues"]
  , is_project := anyKeyword url ["/project", "/projects"]
  , is_settings := anyKeyword url ["/settings", "/config", "/preferences"]
  , is_login := anyKeyword url ["/login", "/signin", "/auth", "/sign-in"] }

/-!
Login Handshake detection: page_helpers.is_login_page (src/src/page_helpers.py,
lines 6-63).  The source intends to walk a fixed list of email/username
indicator selectors and one of password indicator selectors, but each loop
body runs `element = await page.locator(indicator).first` — in Playwright's
async API `locator()` is synchronous and `.first` a property returning a
Locator, which is not awaitable, so every iteration raises TypeError into the
bare `except: continue` (every other `.first` use in this repository omits the
await).  `has_email_field` and `has_password_field` therefore never become
true and the detector reduces to the URL-keyword test of lines 55-59.  A page
is modelled as the ordered list of its input elements (the attributes the
selectors would inspect — the claim's vocabulary of email/password-like
fields) plus the location string.
-/

structure InputEl where
  type_ : String
  name : String
  id : String
  placeholder : String
  visible : Bool
deriving Repr, DecidableEq

/-- The page state is_login_page inspects. -/
structure LoginProbe where
  inputs : List InputEl
  url : String
deriving Repr, DecidableEq

/-- The seven email/username indicator selectors, as element predicates. -/
def emailIndicators : List (InputEl → Bool) :=
  [ fun e => e.type_ == "email"
  , fun e => strInLower "email" e.name
  , fun e => strInLower "username" e.name
  , fun e => strInLower "email" e.id
  , fun e => strInLower "username" e.id
  , fun e => strInLower "email" e.placeholder
  , fun e => strInLower "username" e.placeholder ]

/-- The four password indicator selectors, as element predicates. -/
def passwordIndicators : List (InputEl → Bool) :=
  [ fun e => e.type_ == "password"
  , fun e => strInLower "password" e.name
  , fun e => strInLower "password" e.id
  , fun e => strInLower "password" e.placeholder ]

/-- The login-path keyword list of is_login_page. -/
def loginPaths : List String := ["/login", "/signin", "/auth", "/sign-in", "/log-in", "/sign-in/"]

/-- page_helpers.is_login_page: the field flags stay false — every pass of
the indicator loops raises the swallowed TypeError described above, so the
lines 51-52 conjunction never fires — and the detector answers the
URL-keyword test alone; anything else (errors included) yields false. -/
def is_login_page (p : LoginProbe) : Bool :=
  let has_email_field := false
  let has_password_field := false
  if has_email_field && has_password_field then
    true
  else
    anyKeyword (lowerStr p.url) loginPaths

/-- An input that any email/username indicator matches (the spec's
"email/username-like input"). -/
def emailLike (e : InputEl) : Bool := emailIndicators.any (fun p => p e)

/-- An input that any password indicator matches. -/
def passwordLike (e : InputEl) : Bool := passwordIndicators.any (fun p => p e)

/-- The page shows a visible email/username-like input somewhere. -/
def showsVisibleEmailField (p : LoginProbe) : Bool :=
  p.inputs.any (fun e => e.visible && emailLike e)

/-- The page shows a visible password-like input somewhere. -/
def showsVisiblePasswordField (p : LoginProbe) : Bool :=
  p.inputs.any (fun e => e.visible && passwordLike e)

/-- Claim C10's reading of the detector: some visible email-like input and
some visible password-like input anywhere on the page, or a login path. -/
def is_login_page_claim (p : LoginProbe) : Bool :=
  (showsVisibleEmailField p && showsVisiblePasswordField p)
    || anyKeyword (lowerStr p.url) loginPaths

/-- An ordinary login form: a visible email input and a visible password
input — both the first match of their indicator selectors — rendered at a
URL carrying no login-path keyword. -/
def plainLoginFormPage : LoginProbe :=
  { inputs :=
      [ { type_ := "email", name := "email", id := "email"
        , placeholder := "Email", visible := true }
      , { type_ := "password", name := "password", id := "password"
        , placeholder := "Password", visible := true } ]
  , url := "https://app.example.com/welcome" }

/-- C8: get_url_state is a pure function of the location string (it is defined
on the string alone, so equal URLs trivially yield equal flag records), with
is_create holding exactly when the lowercased URL contains one of /new,
/create, /add, /edit and is_issue exactly when it contains /issue or /issues;
the URL .../projects/42/issues/new sets both is_issue and is_create. -/
theorem C8_url_state_flags : ∀ url : String,
    ((get_url_state url).is_create
      = (strIn "/new" (lowerStr url) || strIn "/create" (lowerStr url)
          || strIn "/add" (lowerStr url) || strIn "/edit" (lowerStr url)))
    ∧ ((get_url_state url).is_issue
      = (strIn "/issue" (lowerStr url) || strIn "/issues" (lowerStr url)))
    ∧ (get_url_state "https://app.example.com/projects/42/issues/new").is_issue = true
    ∧ (get_url_state "https://app.example.com/projects/42/issues/new").is_create = true := by
  intro url
  refine ⟨?_, ?_, by decide, by decide⟩ <;>
    simp [get_url_state, anyKeyword, List.any, Bool.or_assoc]

/-- C10 fails as stated: this page shows a visible email input and a visible
password input, and its URL carries no login keyword, so the claim requires
True; the program's field detection never fires (the awaited Locator raises
into the bare except on every indicator), so is_login_page returns False. -/
theorem C10_counterexample :
    is_login_page_claim plainLoginFormPage = true
      ∧ is_login_page plainLoginFormPage = false := by decide

/-!
Element Resolver, text targets: element_helpers.click_text_element
(src/src/element_helpers.py, lines 6-154).  Elements carry the data the six
strategies inspect: inner text, visibility, and whether the element is a
button (tag button or role=button; the accessible name consulted by the
role-based strategy 6 is its inner text).  A Playwright locator text=/T/i
matches the elements whose inner text contains T case-insensitively; a click
on a visible element succeeds, on a non-visible one it times out and the
strategy falls through, except in strategy 5 where the source deliberately
climbs to the parent of a non-visible match and clicks that.
-/

structure TextEl where
  innerText : String
  visible : Bool
  isButton : Bool
deriving Repr, DecidableEq

/-- The action_synonyms table of click_text_element, in source order. -/
def action_synonyms : List (String × List String) :=
  [ ("create", ["save", "submit", "add", "confirm", "done", "finish", "apply", "ok",
      "continue", "next", "send", "post", "publish"])
  , ("save", ["create", "submit", "update", "confirm", "done", "finish", "apply", "ok",
      "continue", "next"])
  , ("submit", ["create", "save", "confirm", "done", "finish", "apply", "ok",
      "continue", "next", "send"])
  , ("add", ["create", "new", "insert", "plus"])
  , ("new", ["create", "add", "new"])
  , ("edit", ["update", "modify", "change", "save"])
  , ("update", ["save", "submit", "confirm", "apply"])
  , ("delete", ["remove", "trash", "archive"])
  , ("cancel", ["close", "dismiss", "back"])
  , ("confirm", ["save", "submit", "ok", "yes", "accept"]) ]

/-- synonyms_to_try: exact key lookup of the normalized search text, else the
first key that contains it or is contained in it, else nothing. -/
def synonymsFor (text : String) : List String :=
  let ns := String.mk (normChars text)
  match action_synonyms.find? (fun kv => kv.1 == ns) with
  | some kv => kv.2
  | none =>
    match action_synonyms.find? (fun kv => strIn kv.1 ns || strIn ns kv.1) with
    | some kv => kv.2
    | none => []

/-- Membership in the locator text=/text/i: the element's inner text contains
the search text case-insensitively. -/
def textMatches (el : TextEl) (text : String) : Bool :=
  infixChars (lowerChars text.toList) (lowerChars el.innerText.toList)

/-- Which strategy of click_text_element clicked, and the element's position
in document order. -/
inductive ClickOutcome where
  | exact (i : Nat)
  | synonym (syn : String) (i : Nat)
  | substringAny (i : Nat)
  | substringButton (i : Nat)
  | parentOrSelf (i : Nat)
  | byRole (i : Nat)
deriving Repr, DecidableEq

/-- Strategy 1: among the elements containing the text, the first whose
stripped, lowercased inner text equals the stripped, lowercased search text
and which is visible. -/
def exactStage (els : List TextEl) (text : String) : Option (Nat × TextEl) :=
  els.enum.find? fun ie =>
    textMatches ie.2 text && (normChars ie.2.innerText == normChars text) && ie.2.visible

/-- Strategy 2: the first visible button whose stripped, lowercased text
equals or contains one of the synonyms; the synonym reported is the first
matching one for that button. -/
def synonymStage (els : List TextEl) (text : String) : Option (String × Nat) :=
  let syns := synonymsFor text
  if syns.isEmpty then none
  else
    match els.enum.find? (fun ie =>
        ie.2.isButton && ie.2.visible &&
          syns.any fun s =>
            s == String.mk (normChars ie.2.innerText)
              || strIn s (String.mk (normChars ie.2.innerText))) with
    | some ie =>
      match syns.find? (fun s =>
          s == String.mk (normChars ie.2.innerText)
            || strIn s (String.mk (normChars ie.2.innerText))) with
      | some s => some (s, ie.1)
      | none => none
    | none => none

/-- Strategy 3: the first element containing the text, clicked if visible. -/
def substringAnyStage (els : List TextEl) (text : String) : Option (Nat × TextEl) :=
  match els.enum.find? (fun ie => textMatches ie.2 text) with
  | some ie => if ie.2.visible then some ie else none
  | none => none

/-- Strategies 4 and 6 share this search: the first visible button whose text
contains the search text (strategy 6 matches the accessible name by a
case-insensitive regex, which on these elements is the same test). -/
def buttonSubstringStage (els : List TextEl) (text : String) : Option (Nat × TextEl) :=
  els.enum.find? fun ie => ie.2.isButton && textMatches ie.2 text && ie.2.visible

/-- Strategy 5: the first element containing the text; if it is not visible
the source clicks its parent instead, so any first match yields a click. -/
def parentStage (els : List TextEl) (text : String) : Option (Nat × TextEl) :=
  els.enum.find? fun ie => textMatches ie.2 text

/-- element_helpers.click_text_element: the six strategies in priority order;
none succeeding raises, modelled as none. -/
def click_text_element (els : List TextEl) (text : String) : Option ClickOutcome :=
  match exactStage els text with
  | some ie => some (.exact ie.1)
  | none =>
  match synonymStage els text with
  | some si => some (.synonym si.1 si.2)
  | none =>
  match substringAnyStage els text with
  | some ie => some (.substringAny ie.1)
  | none =>
  match buttonSubstringStage els text with
  | some ie => some (.substringButton ie.1)
  | none =>
  match parentStage els text with
  | some ie => some (.parentOrSelf ie.1)
  | none =>
  match buttonSubstringStage els text with
  | some ie => some (.byRole ie.1)
  | none => none

/-- The spec's shadowing scenario: elements reading My Issues and Issues,
both visible. -/
def issuesPage : List TextEl :=
  [ { innerText := "My Issues", visible := true, isButton := false }
  , { innerText := "Issues", visible := true, isButton := false } ]

/-- C3: whenever some visible element's stripped, case-folded inner text
equals the normalized search text, click_text_element clicks an exact match
(strategy 1) — never a synonym, substring or button-scoped match — and with
My Issues and Issues both visible, text=Issues clicks the Issues element. -/
theorem C3_exact_text_preferred (els : List TextEl) (text : String)
    (h : ∃ ie ∈ els.enum,
      (textMatches ie.2 text && (normChars ie.2.innerText == normChars text)
        && ie.2.visible) = true) :
    (∃ i el, click_text_element els text = some (ClickOutcome.exact i)
        ∧ (i, el) ∈ els.enum
        ∧ normChars el.innerText = normChars text ∧ el.visible = true)
    ∧ click_text_element issuesPage "Issues" = some (ClickOutcome.exact 1) := by
  have hsome : (exactStage els text).isSome := by
    unfold exactStage
    exact List.find?_isSome.mpr h
  obtain ⟨ie, hfind⟩ := Option.isSome_iff_exists.mp hsome
  have hp := List.find?_some hfind
  have hmem := List.mem_of_find?_eq_some hfind
  simp only [Bool.and_eq_true, beq_iff_eq] at hp
  refine ⟨⟨ie.1, ie.2, ?_, hmem, hp.1.2, hp.2⟩, by decide⟩
  unfold click_text_element
  rw [hfind]

/-- C3 witness: the concrete Issues page discharges the hypothesis; the
Issues element (index 1) is the exact match clicked. -/
theorem C3_witness :
    (∃ i el, click_text_element issuesPage "Issues" = some (ClickOutcome.exact i)
        ∧ (i, el) ∈ issuesPage.enum
        ∧ normChars el.innerText = normChars "Issues" ∧ el.visible = true)
    ∧ click_text_element issuesPage "Issues" = some (ClickOutcome.exact 1) :=
  C3_exact_text_preferred issuesPage "Issues" (by decide)

/-- A page holding only buttons unrelated to the word Banana. -/
def bananaPage : List TextEl :=
  [ { innerText := "Create", visible := true, isButton := true }
  , { innerText := "Save project", visible := true, isButton := true }
  , { innerText := "My Issues", visible := true, isButton := false } ]

/-- C9: the synonym table yields nothing for a term that neither is nor
overlaps a configured action verb, and when additionally no element contains
the search text, every strategy fails and resolution raises (none); in
particular synonymsFor Banana is empty. -/
theorem C9_synonym_only_for_action_verbs (els : List TextEl) (text : String)
    (hno : ∀ ie ∈ els.enum, textMatches ie.2 text = false)
    (hsyn : synonymsFor text = []) :
    click_text_element els text = none ∧ synonymsFor "Banana" = [] := by
  refine ⟨?_, by decide⟩
  have hfalse : ∀ (q : Nat × TextEl → Bool),
      (∀ ie ∈ els.enum, q ie = false) → els.enum.find? q = none := by
    intro q hq
    exact List.find?_eq_none.mpr fun x hx => by simp [hq x hx]
  have h1 : exactStage els text = none := by
    unfold exactStage
    exact hfalse _ fun ie hie => by simp [hno ie hie]
  have h2 : synonymStage els text = none := by
    unfold synonymStage
    simp [hsyn]
  have h3 : substringAnyStage els text = none := by
    unfold substringAnyStage
    rw [hfalse _ fun ie hie => hno ie hie]
  have h4 : buttonSubstringStage els text = none := by
    unfold buttonSubstringStage
    exact hfalse _ fun ie hie => by simp [hno ie hie]
  have h5 : parentStage els text = none := by
    unfold parentStage
    exact hfalse _ fun ie hie => hno ie hie
  unfold click_text_element
  rw [h1, h2, h3, h4, h5]

/-- C9 witness: on a page of unrelated buttons, text=Banana resolves to
nothing rather than clicking any of them. -/
theorem C9_witness :
    click_text_element bananaPage "Banana" = none ∧ synonymsFor "Banana" = [] :=
  C9_synonym_only_for_action_verbs bananaPage "Banana" (by decide) (by decide)

/-!
Generic stable insertion sort, used to model Python's stable list.sort: an
element is inserted before the first element it may precede, so elements the
comparison ties keep their original relative order.
-/

def insertSorted (bef : α → α → Bool) (x : α) : List α → List α
  | [] => [x]
  | y :: ys => if bef x y then x :: y :: ys else y :: insertSorted bef x ys

def sortByBef (bef : α → α → Bool) : List α → List α
  | [] => []
  | a :: rest => insertSorted bef a (sortByBef bef rest)

theorem mem_insertSorted (bef : α → α → Bool) (x : α) (l : List α) (z : α) :
    z ∈ insertSorted bef x l ↔ z = x ∨ z ∈ l := by
  induction l with
  | nil => simp [insertSorted]
  | cons y ys ih =>
    by_cases h : bef x y = true
    · simp [insertSorted, h]
    · simp [insertSorted, h, ih]
      tauto

theorem mem_sortByBef (bef : α → α → Bool) (l : List α) (z : α) :
    z ∈ sortByBef bef l ↔ z ∈ l := by
  induction l with
  | nil => simp [sortByBef]
  | cons a rest ih => simp [sortByBef, mem_insertSorted, ih]

/-- Python's sort(key=score, reverse=True): stable, descending by score. -/
def sortDescBy (f : α → Int) : List α → List α :=
  sortByBef fun x y => decide (f y ≤ f x)

theorem head?_sortDescBy_max (f : α → Int) :
    ∀ (l : List α) (u : α), (sortDescBy f l).head? = some u → ∀ x ∈ l, f x ≤ f u := by
  intro l
  induction l with
  | nil => intro u hu; simp [sortDescBy, sortByBef] at hu
  | cons a rest ih =>
    intro u hu x hx
    rw [sortDescBy, sortByBef] at hu
    rcases hrest : sortByBef (fun x y => decide (f y ≤ f x)) rest with _ | ⟨v, tail⟩
    · rw [hrest] at hu
      simp [insertSorted] at hu
      rcases List.mem_cons.mp hx with h | h
      · simp [h, hu]
      · exfalso
        have hxm : x ∈ sortByBef (fun x y => decide (f y ≤ f x)) rest :=
          (mem_sortByBef _ rest x).mpr h
        rw [hrest] at hxm
        exact (List.not_mem_nil x) hxm
    · rw [hrest] at hu
      have hvhead : (sortDescBy f rest).head? = some v := by
        rw [sortDescBy, hrest]; rfl
      by_cases hb : f v ≤ f a
      · simp [insertSorted, hb] at hu
        rcases List.mem_cons.mp hx with h | h
        · simp [h, ← hu]
        · exact le_trans (le_trans (ih v hvhead x h) hb) (by simp [← hu])
      · simp [insertSorted, hb] at hu
        rcases List.mem_cons.mp hx with h | h
        · rw [h, ← hu]
          exact le_of_lt (lt_of_not_le hb)
        · rw [← hu]
          exact ih v hvhead x h

/-!
Element Resolver, symbol targets: element_helpers.click_symbol_element,
strategy 1 (src/src/element_helpers.py, lines 196-301), the scored candidate
search claim C4 describes.  A candidate is a visible button/role-button/link
carrying the symbol in its text, aria-label or title; positive-scoring
candidates are clicked in stable descending score order.  The later
strategies (2-8) run only when this strategy produces no click and are not
touched by the claims.  The processed context keywords for a click action
come from the step goal via stop-word filtering (playwright_executor.py,
lines 981-988), modelled by contextFromGoal.
-/

structure SymButton where
  text : String
  ariaLabel : String
  title : String
  visible : Bool
  x : Option Int
deriving Repr, DecidableEq

/-- A word character of the regex \b\w+\b used by the source. -/
def isWordChar (c : Char) : Bool := c.isAlphanum || c == '_'

/-- Maximal word-character runs of a character list (re.findall of \w+). -/
def wordsOfAux : List Char → List Char → List (List Char)
  | [], acc => if acc.isEmpty then [] else [acc.reverse]
  | c :: rest, acc =>
    if isWordChar c then wordsOfAux rest (c :: acc)
    else if acc.isEmpty then wordsOfAux rest []
    else acc.reverse :: wordsOfAux rest []

def wordsOf (l : List Char) : List (List Char) := wordsOfAux l []

/-- combined_text: button text, aria-label and title joined and lowercased. -/
def combinedText (b : SymButton) : List Char :=
  lowerChars (b.text ++ " " ++ b.ariaLabel ++ " " ++ b.title).toList

/-- combined_text_normalized: the combined text stripped. -/
def combinedNorm (b : SymButton) : List Char := trimChars (combinedText b)

/-- has_symbol: the raw symbol occurs in text, aria-label or title. -/
def hasSymbol (sym : String) (b : SymButton) : Bool :=
  strIn sym b.text || strIn sym b.ariaLabel || strIn sym b.title

/-- A lowercase keyword occurring in the normalized combined text. -/
def inCombined (b : SymButton) (kw : String) : Bool :=
  infixChars kw.toList (combinedNorm b)

def conflictingKeywords : List String :=
  ["team", "workspace", "settings", "profile", "account", "preferences"]

def createKeywords : List String := ["add", "create", "new"]

/-- The intended-button-text component: +50 when the normalized intended
phrase occurs whole in the combined text, plus the floor of 30 times the
fraction of distinct intended words present among the combined text's
words. -/
def intendedScore (intended : Option String) (b : SymButton) : Int :=
  match intended with
  | none => 0
  | some it =>
    let itn := normChars it
    let exactPart : Int := if infixChars itn (combinedNorm b) then 50 else 0
    let iw := (wordsOf itn).eraseDups
    let bw := wordsOf (combinedNorm b)
    let matching := iw.filter fun w => bw.contains w
    let fracPart : Int :=
      if matching.isEmpty then 0
      else if iw.isEmpty then 0
      else Int.ofNat ((30 * matching.length) / iw.length)
    exactPart + fracPart

/-- Ten points per context keyword occurring in the combined text (the list
is walked as given, duplicates counted again, exactly as the source loop). -/
def contextScore (ctx : List String) (b : SymButton) : Int :=
  ((ctx.filter fun k => inCombined b k).length : Int) * 10

/-- Five points when the bounding box exists and its x exceeds 30% of the
viewport width. -/
def positionScore (width : Int) (b : SymButton) : Int :=
  match b.x with
  | some xv => if 10 * xv > 3 * width then 5 else 0
  | none => 0

/-- Three points per generic add/create/new keyword present, granted only
when no context keywords exist or some context keyword also occurs in the
combined text. -/
def createBonus (ctx : List String) (b : SymButton) : Int :=
  ((createKeywords.filter fun k =>
      inCombined b k && (ctx.isEmpty || ctx.any fun c => inCombined b c)).length : Int) * 3

/-- Five points of penalty per conflicting reserved keyword present and not
itself a context keyword — applied by the source ONLY when at least one
context keyword exists. -/
def conflictPenalty (ctx : List String) (b : SymButton) : Int :=
  if ctx.isEmpty then 0
  else ((conflictingKeywords.filter fun k =>
      inCombined b k && !((ctx.map lowerStr).contains k)).length : Int) * 5

/-- The candidate score of click_symbol_element's strategy 1, from the
source. -/
def buttonScore (width : Int) (ctx : List String) (intended : Option String)
    (b : SymButton) : Int :=
  intendedScore intended b + contextScore ctx b + positionScore width b
    + createBonus ctx b - conflictPenalty ctx b

/-- Claim C4's scoring formula taken at its word: identical components, but
the conflict penalty applies to every candidate whether or not any context
keyword exists. -/
def claimConflictPenalty (ctx : List String) (b : SymButton) : Int :=
  ((conflictingKeywords.filter fun k =>
      inCombined b k && !((ctx.map lowerStr).contains k)).length : Int) * 5

/-- Claim C4's candidate score, following the claim's words. -/
def claimButtonScore (width : Int) (ctx : List String) (intended : Option String)
    (b : SymButton) : Int :=
  intendedScore intended b + contextScore ctx b + positionScore width b
    + createBonus ctx b - claimConflictPenalty ctx b

/-- The scored candidate list of strategy 1: visible symbol-bearing buttons
with strictly positive score, paired with their document-order index. -/
def scoredCandidates (width : Int) (sym : String) (ctx : List String)
    (intended : Option String) (buttons : List SymButton) : List (Int × Nat × SymButton) :=
  (buttons.enum.filter fun ib => ib.2.visible && hasSymbol sym ib.2).filterMap
    fun ib =>
      let s := buttonScore width ctx intended ib.2
      if s > 0 then some (s, ib.1, ib.2) else none

/-- Strategy 1 of click_symbol_element: runs only when context keywords or an
intended phrase exist; candidates are attempted in stable descending score
order, and a click on a visible button succeeds, so the head is clicked. -/
def click_symbol_strategy1 (width : Int) (sym : String) (ctx : List String)
    (intended : Option String) (buttons : List SymButton) : Option Nat :=
  if ctx.isEmpty && intended.isNone then none
  else ((sortDescBy (fun t => t.1) (scoredCandidates width sym ctx intended buttons)).head?).map
    fun t => t.2.1

/-- The stop-word list of the click('symbol=...') context inference. -/
def stopWords : List String :=
  ["the", "a", "an", "and", "or", "but", "in", "on", "at", "to", "for", "of", "with",
   "by", "from", "as", "is", "are", "was", "were", "be", "been", "being", "have", "has",
   "had", "do", "does", "did", "will", "would", "should", "could", "may", "might",
   "must", "can", "this", "that", "these", "those", "open", "click", "press", "select",
   "choose", "new"]

/-- Context keywords from a step goal: its words, lowercased, minus stop
words and words of at most two characters (playwright_executor.py, 981-988). -/
def contextFromGoal (goal : String) : List String :=
  ((wordsOf (lowerChars goal.toList)).map fun w => String.mk w).filter
    fun w => !stopWords.contains w && w.length > 2

/-- The sidebar button of the spec's scenario: + Add member at x below 30% of
a 1920-wide viewport. -/
def addMemberButton : SymButton :=
  { text := "+ Add member", ariaLabel := "", title := "", visible := true, x := some 100 }

/-- The main-area button of the spec's scenario: + Add view at x above 30% of
the viewport. -/
def addViewButton : SymButton :=
  { text := "+ Add view", ariaLabel := "", title := "", visible := true, x := some 800 }

/-- A candidate separating the source's score from the claim's formula: no
context keywords, intended phrase go, and the reserved word settings in the
button text. -/
def plusGoSettingsButton : SymButton :=
  { text := "+ go settings", ariaLabel := "", title := "", visible := true, x := none }

/-- C4 fails as stated: with no context keywords (scoring triggered by an
intended phrase alone) the source skips the conflict penalty entirely, so
this candidate scores 80 where the claim's formula, which subtracts 5 for the
reserved word settings absent from context, gives 75. -/
theorem C4_counterexample :
    buttonScore 1920 [] (some "go") plusGoSettingsButton = 80
      ∧ claimButtonScore 1920 [] (some "go") plusGoSettingsButton = 75
      ∧ buttonScore 1920 [] (some "go") plusGoSettingsButton
          ≠ claimButtonScore 1920 [] (some "go") plusGoSettingsButton := by
  refine ⟨by decide, by decide, by decide⟩

/-- C4 amended: whenever at least one context keyword exists — as in every
click('symbol=...') invocation that scores at all — the source's score equals
the claim's formula exactly; the head candidate clicked has maximal score
among the strictly positive scored candidates; and in the scenario with
+ Add member in the sidebar and + Add view in the main area under step goal
Add a view, the + Add view button (index 1) is selected. -/
theorem C4_symbol_scoring (width : Int) (ctx : List String) (intended : Option String)
    (b : SymButton) (h : ctx ≠ []) :
    buttonScore width ctx intended b = claimButtonScore width ctx intended b
    ∧ (∀ (sym : String) (buttons : List SymButton) (t u : Int × Nat × SymButton),
        t ∈ scoredCandidates width sym ctx intended buttons →
        (sortDescBy (fun z => z.1) (scoredCandidates width sym ctx intended buttons)).head?
            = some u →
        t.1 ≤ u.1)
    ∧ click_symbol_strategy1 1920 "+" (contextFromGoal "Add a view") none
        [addMemberButton, addViewButton] = some 1 := by
  refine ⟨?_, ?_, by decide⟩
  · have hne : ctx.isEmpty = false := by
      cases ctx with
      | nil => exact absurd rfl h
      | cons c cs => rfl
    simp [buttonScore, claimButtonScore, conflictPenalty, claimConflictPenalty, hne]
  · intro sym buttons t u ht hu
    exact head?_sortDescBy_max (fun z => z.1) _ u hu t ht

/-- C4 witness: the context keyword list add, view of the scenario goal is
nonempty; the scenario candidates score 13 and 28, and the main-area button
is selected. -/
theorem C4_witness :
    buttonScore 1920 (contextFromGoal "Add a view") none addViewButton
        = claimButtonScore 1920 (contextFromGoal "Add a view") none addViewButton
    ∧ (∀ (sym : String) (buttons : List SymButton) (t u : Int × Nat × SymButton),
        t ∈ scoredCandidates 1920 sym (contextFromGoal "Add a view") none buttons →
        (sortDescBy (fun z => z.1)
            (scoredCandidates 1920 sym (contextFromGoal "Add a view") none buttons)).head?
            = some u →
        t.1 ≤ u.1)
    ∧ click_symbol_strategy1 1920 "+" (contextFromGoal "Add a view") none
        [addMemberButton, addViewButton] = some 1 :=
  C4_symbol_scoring 1920 (contextFromGoal "Add a view") none addViewButton (by decide)

/-!
Login idempotence: the per-action gate of execute_plan
(src/src/playwright_executor.py, lines 1406-1525).  Before dispatching an
action string to execute_action, the step loop classifies it: inside a step
whose goal mentions login, every action is skipped once login completed; in
any step, an action recognized as login-related is skipped once login
completed; a login-related action before login triggers the login flow.  The
classification is pure string inspection of the action and the step goal,
transcribed keyword for keyword (the Log in/Sign in/Login click needles keep
the source's capital letters, which a lowercased action can never contain).
-/

/-- is_login_step: the step goal mentions login (lines 1407-1408, 1426). -/
def goalMentionsLogin (goal : String) : Bool :=
  strInLower "login" goal || strInLower "log in" goal || strInLower "sign in" goal

/-- The password-action needles (lines 1429-1434). -/
def passwordActionKeywords : List String :=
  [ "input[type=\"password\"]"
  , "<password>"
  , "type('input[type=\"password\"]"
  , "type(\"input[type='password']" ]

def is_password_field (action : String) : Bool :=
  passwordActionKeywords.any fun k => strInLower k action

/-- The email-action needles (lines 1440-1445). -/
def emailActionKeywords : List String :=
  [ "input[type=\"email\"]"
  , "<email>"
  , "type('input[type=\"email\"]"
  , "type(\"input[type='email']" ]

def is_email_field (action : String) : Bool :=
  emailActionKeywords.any fun k => strInLower k action

/-- is_login_email (lines 1448-1461): an email-field action counts as a login
email in a login step, with credential placeholders, or as a bare email
selector outside any form/textarea context. -/
def is_login_email (goal action : String) : Bool :=
  if !is_email_field action then false
  else if goalMentionsLogin goal then true
  else if strInLower "<email>" action || strInLower "<password>" action then true
  else if strInLower "type('input[type=\"email\"]" action
      || strInLower "type(\"input[type='email\"]" action then
    !strInLower "form" action && !strInLower "textarea" action
  else false

/-- is_submit_in_login (lines 1464-1466). -/
def is_submit_in_login (goal action : String) : Bool :=
  goalMentionsLogin goal
    && (strInLower "button[type=\"submit\"]" action
      || strInLower "click('button[type=\"submit\"]" action
      || strInLower "click(\"button[type='submit']" action)

/-- is_login_button_click (lines 1472-1479): the needles carry capital
letters and are matched against the lowercased action, so this test is
always false; transcribed faithfully. -/
def is_login_button_click (goal action : String) : Bool :=
  goalMentionsLogin goal
    && ([ "click('text=Log in", "click(\"text=Log in", "click('text=Sign in"
        , "click(\"text=Sign in", "click('text=Login", "click(\"text=Login" ].any
      fun k => strInLower k action)

/-- is_login_action (lines 1469-1482). -/
def is_login_action (goal action : String) : Bool :=
  is_password_field action || is_login_email goal action
    || is_submit_in_login goal action || is_login_button_click goal action

/-- What the step loop does with one action before any dispatch (lines
1484-1525): skip it as part of a completed login step, skip it as a
login-related action after login, enter the pre-login flow, or dispatch it to
execute_action. -/
inductive ActionGate where
  | skipLoginStep
  | skipLoginAction
  | loginFlow
  | dispatch
deriving Repr, DecidableEq

def actionGate (loginCompleted skipRemaining : Bool) (goal action : String) : ActionGate :=
  if goalMentionsLogin goal && (loginCompleted || skipRemaining) then .skipLoginStep
  else if (loginCompleted || skipRemaining) && is_login_action goal action then .skipLoginAction
  else if is_login_action goal action && !loginCompleted then .loginFlow
  else .dispatch

/-- Claim C5's login-action predicate, from its words: a password-field
selector, an EMAIL or PASSWORD placeholder, a bare non-form email input, or a
submit/login-button click inside a step whose goal mentions login. -/
def isBareNonFormEmail (action : String) : Bool :=
  is_email_field action
    && (strInLower "type('input[type=\"email\"]" action
      || strInLower "type(\"input[type='email\"]" action)
    && !strInLower "form" action && !strInLower "textarea" action

def isSubmitButtonClick (action : String) : Bool :=
  strInLower "button[type=\"submit\"]" action
    || strInLower "click('button[type=\"submit\"]" action
    || strInLower "click(\"button[type='submit']" action

def isLoginButtonTextClick (action : String) : Bool :=
  [ "click('text=log in", "click(\"text=log in", "click('text=sign in"
  , "click(\"text=sign in", "click('text=login", "click(\"text=login" ].any
    fun k => strInLower k action

def claimLoginAction (goal action : String) : Bool :=
  is_password_field action
    || strInLower "<email>" action || strInLower "<password>" action
    || isBareNonFormEmail action
    || (goalMentionsLogin goal
        && (isSubmitButtonClick action || isLoginButtonTextClick action))

/-- C5: once loginCompleted is true, every action matching the claim's
login-action predicate — password-field selector, EMAIL/PASSWORD
placeholder, bare non-form email input, or submit/login-button click in a
login-goal step — is gated off (as part of a completed login step or as a
login action) before execute_action, hence before any page driver call. -/
theorem C5_login_actions_skipped (lc sr : Bool) (goal action : String)
    (hlc : lc = true) (hcl : claimLoginAction goal action = true) :
    actionGate lc sr goal action = ActionGate.skipLoginStep
      ∨ actionGate lc sr goal action = ActionGate.skipLoginAction := by
  subst hlc
  by_cases hg : goalMentionsLogin goal = true
  · left
    simp [actionGate, hg]
  · right
    have hga : goalMentionsLogin goal = false := by
      cases h : goalMentionsLogin goal
      · rfl
      · exact absurd h hg
    have hla : is_login_action goal action = true := by
      by_cases hpw : is_password_field action = true
      · simp [is_login_action, hpw]
      · have hpwf : is_password_field action = false := by
          cases h : is_password_field action
          · rfl
          · exact absurd h hpw
        have hpassph : strInLower "<password>" action = false := by
          cases h : strInLower "<password>" action
          · rfl
          · exact absurd (by simp [is_password_field, passwordActionKeywords, h]) hpw
        by_cases hm : strInLower "<email>" action = true
        · have hef : is_email_field action = true := by
            simp [is_email_field, emailActionKeywords, hm]
          have hle : is_login_email goal action = true := by
            simp [is_login_email, hef, hga, hm]
          simp [is_login_action, hle]
        · have hmf : strInLower "<email>" action = false := by
            cases h : strInLower "<email>" action
            · rfl
            · exact absurd h hm
          have hbare : isBareNonFormEmail action = true := by
            simpa [claimLoginAction, hga, hpwf, hmf, hpassph] using hcl
          have hef : is_email_field action = true := by
            cases h : is_email_field action
            · simp [isBareNonFormEmail, h] at hbare
            · rfl
          have hvar : (strInLower "type('input[type=\"email\"]" action
              || strInLower "type(\"input[type='email\"]" action) = true := by
            cases h : (strInLower "type('input[type=\"email\"]" action
                || strInLower "type(\"input[type='email\"]" action)
            · simp [isBareNonFormEmail, h] at hbare
            · rfl
          have hnform : strInLower "form" action = false := by
            cases h : strInLower "form" action
            · rfl
            · simp [isBareNonFormEmail, h] at hbare
          have hntext : strInLower "textarea" action = false := by
            cases h : strInLower "textarea" action
            · rfl
            · simp [isBareNonFormEmail, h] at hbare
          have hle : is_login_email goal action = true := by
            simp [is_login_email, hef, hga, hmf, hpassph, hvar, hnform, hntext]
          simp [is_login_action, hle]
    simp [actionGate, hga, hla]

/-- C5 witness: with login completed, a password-selector type action in a
non-login step is gated off as a login action. -/
theorem C5_witness :
    actionGate true false "Create a new project"
        "type('input[type=\"password\"]', '<PASSWORD>')" = ActionGate.skipLoginStep
      ∨ actionGate true false "Create a new project"
        "type('input[type=\"password\"]', '<PASSWORD>')" = ActionGate.skipLoginAction :=
  C5_login_actions_skipped true false "Create a new project"
    "type('input[type=\"password\"]', '<PASSWORD>')" rfl (by decide)

/-!
Field Allocator: the type(...) handler of execute_action
(src/src/playwright_executor.py, lines 572-895).  A field carries the
geometry and attributes the handler reads; its signature — the identity
registered in the per-step used list — is the (top, left) pair the source
builds from getBoundingClientRect.  Resolution of the raw CSS selector of the
direct path is abstracted by listing, per field, the raw selectors that match
it; the structured base-selector scans are modelled from the fields'
attributes.  `fillable` states that clicking and filling the element
succeeds; when it is false the attempt raises and the handler moves on,
exactly as the source's nested try blocks do.  The first three tries (click
then fill, page.fill, click then page.fill) all address
page.locator(selector).first and are modelled as one direct attempt, since
they succeed or fail together on the same first-matching element.
-/

structure Field where
  top : Int
  left : Int
  height : Int
  width : Int
  visible : Bool
  contentEditable : Bool
  isTextarea : Bool
  isInput : Bool
  inputType : Option String
  inDialog : Bool
  inModal : Bool
  inForm : Bool
  matchedBy : List String
  fillable : Bool
deriving Repr, DecidableEq

/-- The used-field signature: getBoundingClientRect top and left. -/
def Field.sig (f : Field) : Int × Int := (f.top, f.left)

/-- Tries 1-3: the first element matching the raw selector, filled when
interactable; its signature is registered but the used list is NOT
consulted. -/
def directAttempt (page : List Field) (sel : String) : Option Field :=
  match page.find? (fun f => f.matchedBy.contains sel) with
  | some f => if f.fillable then some f else none
  | none => none

/-- The fourth try runs only for selectors speaking of inputs, textareas,
nth-of-type or contenteditable (line 625). -/
def fallbackEligible (sel : String) : Bool :=
  strInLower "input" sel || strInLower "textarea" sel
    || strIn "nth-of-type" sel || strInLower "contenteditable" sel

def parseNatChars (l : List Char) : Nat :=
  l.foldl (fun acc c => acc * 10 + (c.toNat - 48)) 0

/-- The regex :nth-of-type\((digits)\): first occurrence in the selector. -/
def findNth : List Char → Option Nat
  | [] => none
  | c :: rest =>
    if ":nth-of-type(".toList.isPrefixOf (c :: rest) then
      let tail := (c :: rest).drop ":nth-of-type(".length
      let digits := tail.takeWhile Char.isDigit
      if !digits.isEmpty && (tail.drop digits.length).head? == some ')' then
        some (parseNatChars digits)
      else findNth rest
    else findNth rest

/-- input:not([type=button]):not([type=submit]):not([type=hidden]). -/
def notButtonInput (f : Field) : Bool :=
  f.isInput && !(f.inputType == some "button")
    && !(f.inputType == some "submit") && !(f.inputType == some "hidden")

/-- The nine base selectors of the fourth try (lines 635-645), in order. -/
def baseMatch : Nat → Field → Bool
  | 0, f => f.inDialog && f.contentEditable
  | 1, f => f.inModal && f.contentEditable
  | 2, f => f.contentEditable
  | 3, f => f.inDialog && notButtonInput f
  | 4, f => f.inModal && notButtonInput f
  | 5, f => f.inForm && notButtonInput f
  | 6, f => f.isTextarea
  | 7, f => notButtonInput f
  | 8, f => f.isInput && f.inputType == some "text"
  | _, _ => false

/-- Python sort key (top, -area): ascending top, ties broken by larger
area first, ties preserved. -/
def descKeyLE (a b : Field) : Bool :=
  decide (a.top < b.top)
    || (decide (a.top = b.top) && decide (b.height * b.width ≤ a.height * a.width))

/-- Python sort key top: ascending. -/
def topKeyLE (a b : Field) : Bool := decide (a.top ≤ b.top)

/-- The nth-of-type branch of the fourth try: the field at the 1-indexed
position, filled only when its signature is fresh (and interactable). -/
def nthPick (fields : List Field) (used : List (Int × Int)) (n : Nat) : Option Field :=
  match fields.get? (n - 1) with
  | some f => if !(used.contains f.sig) && f.fillable then some f else none
  | none => none

/-- The ranking branch: not-yet-used candidates sorted by the given key, the
best one filled when interactable. -/
def rankPick (fields : List Field) (used : List (Int × Int))
    (bef : Field → Field → Bool) : Option Field :=
  match (sortByBef bef (fields.filter fun f => !(used.contains f.sig))).head? with
  | some f => if f.fillable then some f else none
  | none => none

/-- One base selector of the fourth try: honour an nth position if it fits,
otherwise rank the not-yet-used candidates and take the best; a non
interactable pick raises and the next base selector is tried. -/
def classAttempt (page : List Field) (used : List (Int × Int)) (descSort : Bool)
    (nth : Option Nat) (k : Nat) : Option Field :=
  let fields := page.filter (baseMatch k)
  let bef := if descSort then descKeyLE else topKeyLE
  match nth with
  | some n => if n ≤ fields.length then nthPick fields used n else rankPick fields used bef
  | none => rankPick fields used bef

/-- The fourth try: the nine base selectors in order, first success wins. -/
def scanBase (page : List Field) (used : List (Int × Int)) (descSort : Bool)
    (nth : Option Nat) : Option Field :=
  (List.range 9).findSome? (classAttempt page used descSort nth)

/-- The five contenteditable last-resort selectors (lines 725-731); the two
page-wide variants coincide on the modelled attribute.  This path neither
consults the used list nor registers the filled signature. -/
def ceMatch : Nat → Field → Bool
  | 0, f => f.inDialog && f.contentEditable && f.visible
  | 1, f => f.inModal && f.contentEditable && f.visible
  | 2, f => f.inForm && f.contentEditable && f.visible
  | 3, f => f.contentEditable && f.visible
  | 4, f => f.contentEditable && f.visible
  | _, _ => false

def ceAttempt (page : List Field) (k : Nat) : Option Field :=
  match (page.filter (ceMatch k)).head? with
  | some f => if f.fillable then some f else none
  | none => none

def lastResortCE (page : List Field) : Option Field :=
  (List.range 5).findSome? (ceAttempt page)

/-- The four textarea last-resort selectors (lines 755-760). -/
def taMatch : Nat → Field → Bool
  | 0, f => f.inDialog && f.isTextarea && f.visible
  | 1, f => f.inModal && f.isTextarea && f.visible
  | 2, f => f.inForm && f.isTextarea && f.visible
  | 3, f => f.isTextarea && f.visible
  | _, _ => false

/-- Which textarea a selector's match list offers: description-like requests
rank the unused ones and fall back to the first, others take the first. -/
def taChoose (tas : List Field) (used : List (Int × Int)) (descSort : Bool) :
    Option Field :=
  if descSort then
    match (sortByBef descKeyLE (tas.filter fun f => !(used.contains f.sig))).head? with
    | some f => some f
    | none => tas.head?
  else tas.head?

/-- One textarea selector (lines 761-802): the chosen textarea is filled
only when its signature is fresh, and then registered. -/
def taAttempt (page : List Field) (used : List (Int × Int)) (descSort : Bool)
    (k : Nat) : Option Field :=
  let tas := page.filter (taMatch k)
  if tas.isEmpty then none
  else
    match taChoose tas used descSort with
    | some f => if !(used.contains f.sig) && f.fillable then some f else none
    | none => none

def taScan (page : List Field) (used : List (Int × Int)) (descSort : Bool) : Option Field :=
  (List.range 4).findSome? (taAttempt page used descSort)

/-- The sixteen input last-resort selectors (lines 810-827): four input kinds
(generic non-button, text, search, email) each scoped to dialog, modal, form,
anywhere. -/
def scopeMatch : Nat → Field → Bool
  | 0, f => f.inDialog
  | 1, f => f.inModal
  | 2, f => f.inForm
  | _, _ => true

def inputKindMatch : Nat → Field → Bool
  | 0, f => notButtonInput f
  | 1, f => f.isInput && f.inputType == some "text"
  | 2, f => f.isInput && f.inputType == some "search"
  | 3, f => f.isInput && f.inputType == some "email"
  | _, _ => false

def inMatch (k : Nat) (f : Field) : Bool :=
  f.visible && scopeMatch (k % 4) f && inputKindMatch (k / 4) f

/-- The extra attribute filter of lines 839-840: type absent or one of
text, search, email. -/
def typeOk (f : Field) : Bool :=
  match f.inputType with
  | none => true
  | some t => t == "text" || t == "search" || t == "email"

/-- One input selector (lines 828-866): unused, type-acceptable candidates
ranked by top position; best one filled and registered. -/
def inAttempt (page : List Field) (used : List (Int × Int)) (k : Nat) : Option Field :=
  let fields := page.filter (inMatch k)
  let cands := (fields.filter fun f => !(used.contains f.sig)).filter typeOk
  match (sortByBef topKeyLE cands).head? with
  | some f => if f.fillable then some f else none
  | none => none

def inScan (page : List Field) (used : List (Int × Int)) : Option Field :=
  (List.range 16).findSome? (inAttempt page used)

/-- Which path of the type handler performed the fill. -/
inductive FillPath where
  | direct
  | fallbackScan
  | lastCE
  | lastTextarea
  | lastInput
  | keyboard
deriving Repr, DecidableEq

structure TypeOutcome where
  path : FillPath
  field : Option Field
  used' : List (Int × Int)
deriving Repr, DecidableEq

/-- The type(selector, text) handler: direct selector fill first (registering
but never consulting the used list), then the base-selector scan (honouring
the used list), then the contenteditable, textarea, input and keyboard last
resorts; the final keyboard fallback types blindly and registers nothing. -/
def descSortFlag (sel text : String) : Bool :=
  strInLower "textarea" sel || strInLower "description" text
    || strInLower "description" sel

/-- The fourth try as guarded by its selector condition. -/
def viaScan (page : List Field) (used : List (Int × Int)) (sel text : String) :
    Option Field :=
  if fallbackEligible sel then
    scanBase page used (descSortFlag sel text) (findNth sel.toList)
  else none

def typeAction (page : List Field) (sel text : String) (used : List (Int × Int)) :
    TypeOutcome :=
  match directAttempt page sel with
  | some f => ⟨.direct, some f, used ++ [f.sig]⟩
  | none =>
    match viaScan page used sel text with
    | some f => ⟨.fallbackScan, some f, used ++ [f.sig]⟩
    | none =>
      match lastResortCE page with
      | some f => ⟨.lastCE, some f, used⟩
      | none =>
        match taScan page used (descSortFlag sel text) with
        | some f => ⟨.lastTextarea, some f, used ++ [f.sig]⟩
        | none =>
          match inScan page used with
          | some f => ⟨.lastInput, some f, used ++ [f.sig]⟩
          | none => ⟨.keyboard, none, used⟩

theorem mem_of_head? {α : Type u} {l : List α} {a : α} (h : l.head? = some a) : a ∈ l := by
  cases l with
  | nil => simp at h
  | cons x xs =>
    simp only [List.head?] at h
    injection h with h
    simp [h]

theorem nthPick_unused {fields : List Field} {used : List (Int × Int)} {n : Nat}
    {f : Field} (h : nthPick fields used n = some f) : used.contains f.sig = false := by
  unfold nthPick at h
  split at h
  · rename_i f0 hget
    split at h
    · rename_i hguard
      injection h with h
      subst h
      simp only [Bool.and_eq_true, Bool.not_eq_true'] at hguard
      exact hguard.1
    · exact Option.noConfusion h
  · exact Option.noConfusion h

theorem rankPick_unused {fields : List Field} {used : List (Int × Int)}
    {bef : Field → Field → Bool} {f : Field}
    (h : rankPick fields used bef = some f) : used.contains f.sig = false := by
  unfold rankPick at h
  split at h
  · rename_i f0 hhead
    split at h
    · injection h with h
      subst h
      have hm := (mem_sortByBef _ _ _).mp (mem_of_head? hhead)
      have := (List.mem_filter.mp hm).2
      simpa using this
    · exact Option.noConfusion h
  · exact Option.noConfusion h

theorem classAttempt_unused {page : List Field} {used : List (Int × Int)} {d : Bool}
    {nth : Option Nat} {k : Nat} {f : Field}
    (h : classAttempt page used d nth k = some f) : used.contains f.sig = false := by
  cases nth with
  | none => exact rankPick_unused h
  | some n =>
    have h' : (if n ≤ (page.filter (baseMatch k)).length
        then nthPick (page.filter (baseMatch k)) used n
        else rankPick (page.filter (baseMatch k)) used
          (if d then descKeyLE else topKeyLE)) = some f := h
    by_cases hn : n ≤ (page.filter (baseMatch k)).length
    · rw [if_pos hn] at h'
      exact nthPick_unused h'
    · rw [if_neg hn] at h'
      exact rankPick_unused h'

theorem scanBase_unused {page : List Field} {used : List (Int × Int)} {d : Bool}
    {nth : Option Nat} {f : Field}
    (h : scanBase page used d nth = some f) : used.contains f.sig = false := by
  obtain ⟨k, _, hk⟩ := List.exists_of_findSome?_eq_some h
  exact classAttempt_unused hk

theorem viaScan_unused {page : List Field} {used : List (Int × Int)} {sel text : String}
    {f : Field} (h : viaScan page used sel text = some f) :
    used.contains f.sig = false := by
  unfold viaScan at h
  split at h
  · exact scanBase_unused h
  · exact Option.noConfusion h

theorem taAttempt_unused {page : List Field} {used : List (Int × Int)} {d : Bool}
    {k : Nat} {f : Field}
    (h : taAttempt page used d k = some f) : used.contains f.sig = false := by
  simp only [taAttempt] at h
  split at h
  · exact Option.noConfusion h
  · split at h
    · rename_i f0 _
      split at h
      · rename_i hguard
        injection h with h
        subst h
        simp only [Bool.and_eq_true, Bool.not_eq_true'] at hguard
        exact hguard.1
      · exact Option.noConfusion h
    · exact Option.noConfusion h

theorem taScan_unused {page : List Field} {used : List (Int × Int)} {d : Bool} {f : Field}
    (h : taScan page used d = some f) : used.contains f.sig = false := by
  obtain ⟨k, _, hk⟩ := List.exists_of_findSome?_eq_some h
  exact taAttempt_unused hk

theorem inAttempt_unused {page : List Field} {used : List (Int × Int)} {k : Nat} {f : Field}
    (h : inAttempt page used k = some f) : used.contains f.sig = false := by
  simp only [inAttempt] at h
  split at h
  · rename_i f0 hhead
    split at h
    · injection h with h
      subst h
      have hm := mem_of_head? hhead
      have hm2 := (mem_sortByBef _ _ _).mp hm
      have := (List.mem_filter.mp (List.mem_filter.mp hm2).1).2
      simpa using this
    · exact Option.noConfusion h
  · exact Option.noConfusion h

theorem inScan_unused {page : List Field} {used : List (Int × Int)} {f : Field}
    (h : inScan page used = some f) : used.contains f.sig = false := by
  obtain ⟨k, _, hk⟩ := List.exists_of_findSome?_eq_some h
  exact inAttempt_unused hk

/-- A lone text input reachable through the raw selector input. -/
def cField : Field :=
  { top := 10, left := 20, height := 30, width := 200, visible := true
  , contentEditable := false, isTextarea := false, isInput := true
  , inputType := some "text", inDialog := false, inModal := false, inForm := false
  , matchedBy := ["input"], fillable := true }

/-- C2 fails as stated: the first type in a step fills cField through the
direct selector path and registers its signature; a second type in the same
step, with that signature already in the used set, fills the very same field
again — the direct path never consults the set. -/
theorem C2_counterexample :
    (typeAction [cField] "input" "Alpha" []).field = some cField
      ∧ (typeAction [cField] "input" "Alpha" []).used' = [cField.sig]
      ∧ (typeAction [cField] "input" "Beta" [cField.sig]).field = some cField := by
  refine ⟨by decide, by decide, by decide⟩

/-- C2 amended: every fill produced by the registering fallback paths — the
base-selector scan and the textarea/input last resorts — lands on a field
whose signature is not yet in the per-step used set and appends that
signature; the direct selector path registers the signature too but never
consults the set, and the contenteditable/keyboard last resorts neither
check nor register. -/
theorem C2_field_allocation (page : List Field) (sel text : String)
    (used : List (Int × Int)) (f : Field)
    (hf : (typeAction page sel text used).field = some f)
    (hp : (typeAction page sel text used).path = FillPath.fallbackScan
      ∨ (typeAction page sel text used).path = FillPath.lastTextarea
      ∨ (typeAction page sel text used).path = FillPath.lastInput) :
    used.contains f.sig = false
      ∧ (typeAction page sel text used).used' = used ++ [f.sig] := by
  cases hd : directAttempt page sel with
  | some f0 =>
    have hpath : (typeAction page sel text used).path = FillPath.direct := by
      simp [typeAction, hd]
    simp [hpath] at hp
  | none =>
    cases hs : viaScan page used sel text with
    | some f0 =>
      have hout : typeAction page sel text used
          = ⟨FillPath.fallbackScan, some f0, used ++ [f0.sig]⟩ := by
        simp [typeAction, hd, hs]
      have hef : f0 = f := by
        rw [hout] at hf
        simpa using hf
      subst hef
      rw [hout]
      exact ⟨viaScan_unused hs, rfl⟩
    | none =>
      cases hce : lastResortCE page with
      | some f0 =>
        have hpath : (typeAction page sel text used).path = FillPath.lastCE := by
          simp [typeAction, hd, hs, hce]
        simp [hpath] at hp
      | none =>
        cases hta : taScan page used (descSortFlag sel text) with
        | some f0 =>
          have hout : typeAction page sel text used
              = ⟨FillPath.lastTextarea, some f0, used ++ [f0.sig]⟩ := by
            simp [typeAction, hd, hs, hce, hta]
          have hef : f0 = f := by
            rw [hout] at hf
            simpa using hf
          subst hef
          rw [hout]
          exact ⟨taScan_unused hta, rfl⟩
        | none =>
          cases hin : inScan page used with
          | some f0 =>
            have hout : typeAction page sel text used
                = ⟨FillPath.lastInput, some f0, used ++ [f0.sig]⟩ := by
              simp [typeAction, hd, hs, hce, hta, hin]
            have hef : f0 = f := by
              rw [hout] at hf
              simpa using hf
            subst hef
            rw [hout]
            exact ⟨inScan_unused hin, rfl⟩
          | none =>
            have hfld : (typeAction page sel text used).field = none := by
              simp [typeAction, hd, hs, hce, hta, hin]
            rw [hfld] at hf
            exact Option.noConfusion hf

/-- A text input the raw selector misses, reachable only through the
fallback scan. -/
def wField : Field :=
  { top := 5, left := 6, height := 20, width := 100, visible := true
  , contentEditable := false, isTextarea := false, isInput := true
  , inputType := some "text", inDialog := false, inModal := false, inForm := false
  , matchedBy := [], fillable := true }

/-- C2 witness: with the direct selector failing, the fallback scan fills the
unused field and registers its signature. -/
theorem C2_witness :
    ([] : List (Int × Int)).contains wField.sig = false
      ∧ (typeAction [wField] "input" "Quarterly" []).used' = [] ++ [wField.sig] :=
  C2_field_allocation [wField] "input" "Quarterly" [] wField (by decide)
    (Or.inl (by decide))

/-!
Plan Runner: execute_plan (src/src/playwright_executor.py, lines 1374-1624).
The step loop walks ui_navigation_plan with a plain for statement; per step
it resets the used-field list, runs the step-start login check, feeds each
action through the login gate and, when the gate dispatches, through
execute_action, catching any exception (the step is marked unsuccessful and
the loop continues).  A branch signal breaks out of the action loop, and the
branch handler merely looks the target step up and updates a bookkeeping
variable — the for loop then continues with the NEXT LIST ELEMENT.  Page
observations (is_login_page at the various probe points) and execute_action
outcomes are supplied by an environment indexed by step and action position;
the run result records success, the end-of-step screenshot list, the error
slot of the outer handler (which only driver faults can fill — every
modelled operation is total, so it stays empty), and a per-step trace.
-/

structure PlanStep where
  number : Nat
  goal : String
  actions : List String
deriving Repr, DecidableEq

/-- What execute_action returns (or throws) for one dispatched action. -/
inductive ActResult where
  | ok
  | branch (target : Nat)
  | comment
  | cond (b : Bool)
  | err
deriving Repr, DecidableEq

structure ExecEnv where
  isLoginAtStep : Nat → Bool
  isLoginAtAction : Nat → Nat → Bool
  isLoginInFlow : Nat → Nat → Bool
  dispatch : Nat → Nat → ActResult
  loginRelatedPage : Nat → Bool

/-- The fate of one action of a step. -/
inductive ActOutcome where
  | skipped
  | succeeded
  | raised
  | branched (t : Nat)
deriving Repr, DecidableEq

/-- One pass of the action loop's body up to and including the dispatch: the
pre-action login check (line 1417), the login gate (lines 1484-1525, the
pre-login flow skipping the action only when the page is a login page), and
the dispatch outcome of execute_action. -/
def actStep (env : ExecEnv) (i : Nat) (goal action : String) (j : Nat)
    (lc sr : Bool) : ActOutcome × Bool × Bool :=
  let doLogin := !lc && env.isLoginAtAction i j
  let lc1 := lc || doLogin
  let sr1 := sr || doLogin
  match actionGate lc1 sr1 goal action with
  | .skipLoginStep => (.skipped, lc1, sr1)
  | .skipLoginAction => (.skipped, lc1, sr1)
  | .loginFlow =>
    if env.isLoginInFlow i j then (.skipped, true, true)
    else
      match env.dispatch i j with
      | .err => (.raised, lc1, sr1)
      | .branch t => (.branched t, lc1, sr1)
      | _ => (.succeeded, lc1, sr1)
  | .dispatch =>
    match env.dispatch i j with
    | .err => (.raised, lc1, sr1)
    | .branch t => (.branched t, lc1, sr1)
    | _ => (.succeeded, lc1, sr1)

structure ActLoopState where
  loginCompleted : Bool
  skipRemaining : Bool
  processed : Nat
  dispatched : List Nat
  raised : List Nat
  skippedLogin : List Nat
  stepSuccessful : Bool
  branchSignal : Option Nat
deriving Repr, DecidableEq

/-- The action loop (lines 1415-1568): a raise marks the step unsuccessful
and continues; a branch signal breaks; everything else continues. -/
def runActions (env : ExecEnv) (i : Nat) (goal : String) :
    Nat → List String → ActLoopState → ActLoopState
  | _, [], st => st
  | j, a :: rest, st =>
    match actStep env i goal a j st.loginCompleted st.skipRemaining with
    | (.skipped, lc, sr) =>
      runActions env i goal (j + 1) rest
        { st with
            loginCompleted := lc, skipRemaining := sr,
            processed := st.processed + 1,
            skippedLogin := st.skippedLogin ++ [j] }
    | (.succeeded, lc, sr) =>
      runActions env i goal (j + 1) rest
        { st with
            loginCompleted := lc, skipRemaining := sr,
            processed := st.processed + 1,
            dispatched := st.dispatched ++ [j] }
    | (.raised, lc, sr) =>
      runActions env i goal (j + 1) rest
        { st with
            loginCompleted := lc, skipRemaining := sr,
            processed := st.processed + 1,
            dispatched := st.dispatched ++ [j],
            raised := st.raised ++ [j],
            stepSuccessful := false }
    | (.branched t, lc, sr) =>
      { st with
          loginCompleted := lc, skipRemaining := sr,
          processed := st.processed + 1,
          dispatched := st.dispatched ++ [j],
          branchSignal := some t }

/-- The end-of-step screenshot gate _is_login_related_step (lines 70-80). -/
def goalLoginRelated (goal : String) : Bool :=
  ["login", "log in", "sign in", "authenticate", "credentials"].any
    fun k => strInLower k goal

structure StepTrace where
  number : Nat
  usedAtStart : List (Int × Int)
  actionsTotal : Nat
  processed : Nat
  dispatched : List Nat
  raised : List Nat
  skippedLogin : List Nat
  branchSignal : Option Nat
  stepSuccessful : Bool
  loginRelatedStep : Bool
  screenshotTaken : Bool
deriving Repr, DecidableEq

/-- One step of the plan loop (lines 1388-1606): used-field reset, step-start
login check, the action loop, and the end-of-step screenshot taken only for
successful login-related steps. -/
def runStep (env : ExecEnv) (i : Nat) (step : PlanStep) (lc : Bool) :
    StepTrace × Bool :=
  let startLogin := !lc && goalMentionsLogin step.goal && env.isLoginAtStep i
  let st0 : ActLoopState :=
    { loginCompleted := lc || startLogin, skipRemaining := startLogin
    , processed := 0, dispatched := [], raised := [], skippedLogin := []
    , stepSuccessful := true, branchSignal := none }
  let stEnd := runActions env i step.goal 0 step.actions st0
  let related := env.loginRelatedPage i || goalLoginRelated step.goal
  ( { number := step.number
    , usedAtStart := []
    , actionsTotal := step.actions.length
    , processed := stEnd.processed
    , dispatched := stEnd.dispatched
    , raised := stEnd.raised
    , skippedLogin := stEnd.skippedLogin
    , branchSignal := stEnd.branchSignal
    , stepSuccessful := stEnd.stepSuccessful
    , loginRelatedStep := related
    , screenshotTaken := stEnd.stepSuccessful && related }
  , stEnd.loginCompleted )

/-- The for loop over ui_navigation_plan: a branch signal never repositions
it — after the branch handler's bookkeeping the loop takes the next list
element regardless. -/
def runPlanAux (env : ExecEnv) : Nat → Bool → List PlanStep → List StepTrace
  | _, _, [] => []
  | i, lc, s :: rest =>
    let r := runStep env i s lc
    r.1 :: runPlanAux env (i + 1) r.2 rest

structure RunResult where
  success : Bool
  screenshots : List Nat
  error : Option String
  trace : List StepTrace
deriving Repr, DecidableEq

/-- execute_plan: the step loop, then the structured result of lines
1608-1624; no modelled operation reaches the outer except, so the run
returns success true with no error string. -/
def execute_plan (env : ExecEnv) (plan : List PlanStep) : RunResult :=
  let trace := runPlanAux env 0 false plan
  { success := true
  , screenshots := (trace.filter fun r => r.screenshotTaken).map fun r => r.number
  , error := none
  , trace := trace }

theorem runActions_success_monotone (env : ExecEnv) (i : Nat) (goal : String) :
    ∀ (acts : List String) (j : Nat) (st : ActLoopState), st.stepSuccessful = false →
      (runActions env i goal j acts st).stepSuccessful = false := by
  intro acts
  induction acts with
  | nil =>
    intro j st h
    simpa [runActions] using h
  | cons a rest ih =>
    intro j st h
    rcases hstep : actStep env i goal a j st.loginCompleted st.skipRemaining with ⟨o, lc, sr⟩
    cases o with
    | skipped =>
      simp only [runActions, hstep]
      exact ih (j + 1) _ h
    | succeeded =>
      simp only [runActions, hstep]
      exact ih (j + 1) _ h
    | raised =>
      simp only [runActions, hstep]
      exact ih (j + 1) _ rfl
    | branched t =>
      simp only [runActions, hstep]
      exact h

theorem runActions_raised_of_success (env : ExecEnv) (i : Nat) (goal : String) :
    ∀ (acts : List String) (j : Nat) (st : ActLoopState),
      (runActions env i goal j acts st).stepSuccessful = true →
      (runActions env i goal j acts st).raised = st.raised := by
  intro acts
  induction acts with
  | nil =>
    intro j st _
    simp [runActions]
  | cons a rest ih =>
    intro j st h
    rcases hstep : actStep env i goal a j st.loginCompleted st.skipRemaining with ⟨o, lc, sr⟩
    cases o with
    | skipped =>
      simp only [runActions, hstep] at h ⊢
      exact ih (j + 1) _ h
    | succeeded =>
      simp only [runActions, hstep] at h ⊢
      exact ih (j + 1) _ h
    | raised =>
      simp only [runActions, hstep] at h
      have hmono := runActions_success_monotone env i goal rest (j + 1)
        { st with
            loginCompleted := lc, skipRemaining := sr,
            processed := st.processed + 1,
            dispatched := st.dispatched ++ [j],
            raised := st.raised ++ [j],
            stepSuccessful := false } rfl
      rw [hmono] at h
      exact Bool.noConfusion h
    | branched t =>
      simp only [runActions, hstep]

theorem runActions_processed (env : ExecEnv) (i : Nat) (goal : String) :
    ∀ (acts : List String) (j : Nat) (st : ActLoopState),
      (runActions env i goal j acts st).branchSignal = none →
      (runActions env i goal j acts st).processed = st.processed + acts.length := by
  intro acts
  induction acts with
  | nil =>
    intro j st _
    simp [runActions]
  | cons a rest ih =>
    intro j st h
    rcases hstep : actStep env i goal a j st.loginCompleted st.skipRemaining with ⟨o, lc, sr⟩
    cases o with
    | skipped =>
      simp only [runActions, hstep] at h ⊢
      rw [ih (j + 1) _ h]
      simp only [List.length_cons]
      omega
    | succeeded =>
      simp only [runActions, hstep] at h ⊢
      rw [ih (j + 1) _ h]
      simp only [List.length_cons]
      omega
    | raised =>
      simp only [runActions, hstep] at h ⊢
      rw [ih (j + 1) _ h]
      simp only [List.length_cons]
      omega
    | branched t =>
      simp only [runActions, hstep] at h
      exact Option.noConfusion h

theorem runPlanAux_length (env : ExecEnv) :
    ∀ (plan : List PlanStep) (i : Nat) (lc : Bool),
      (runPlanAux env i lc plan).length = plan.length := by
  intro plan
  induction plan with
  | nil =>
    intro i lc
    simp [runPlanAux]
  | cons s rest ih =>
    intro i lc
    simp [runPlanAux, ih]

theorem mem_runPlanAux (env : ExecEnv) :
    ∀ (plan : List PlanStep) (i : Nat) (lc : Bool) (rec : StepTrace),
      rec ∈ runPlanAux env i lc plan →
      rec.usedAtStart = []
        ∧ (rec.branchSignal = none → rec.processed = rec.actionsTotal)
        ∧ (rec.raised ≠ [] → rec.stepSuccessful = false)
        ∧ rec.screenshotTaken = (rec.stepSuccessful && rec.loginRelatedStep) := by
  intro plan
  induction plan with
  | nil =>
    intro i lc rec h
    simp [runPlanAux] at h
  | cons s rest ih =>
    intro i lc rec h
    simp only [runPlanAux] at h
    rcases List.mem_cons.mp h with h | h
    · subst h
      refine ⟨rfl, ?_, ?_, rfl⟩
      · intro hb
        have := runActions_processed env i s.goal s.actions 0 _ hb
        simpa [runStep] using this
      · intro hr
        cases hsucc : ((runStep env i s lc).1).stepSuccessful
        · rfl
        · exfalso
          have hz := runActions_raised_of_success env i s.goal s.actions 0 _
            (by simpa [runStep] using hsucc)
          apply hr
          simpa [runStep] using hz
    · exact ih (i + 1) _ rec h

/-- The environment where every dispatched action raises and no page probe
sees a login page. -/
def envAllErr : ExecEnv :=
  { isLoginAtStep := fun _ => false
  , isLoginAtAction := fun _ _ => false
  , isLoginInFlow := fun _ _ => false
  , dispatch := fun _ _ => .err
  , loginRelatedPage := fun _ => false }

/-- A three-step plan without login content. -/
def demoPlan : List PlanStep :=
  [ { number := 1, goal := "Open the projects board", actions := ["open_page('https://app.example.com/projects')"] }
  , { number := 2, goal := "Create a project", actions := ["click('text=New Project')", "type('input', 'Q1 Launch')"] }
  , { number := 3, goal := "Save it", actions := ["click('text=Create')"] } ]

/-- C6: for every plan and every behaviour of the page and of
execute_action, the run returns the structured result with success flag and
screenshot list and an empty error slot, processes every step, marks a step
with a raising action unsuccessful, and — absent a branch signal — examines
every action of a step even past raising ones. -/
theorem C6_per_action_failures_contained (plan : List PlanStep) (env : ExecEnv) :
    ((execute_plan env plan).success = true
      ∧ (execute_plan env plan).error = none
      ∧ (execute_plan env plan).trace.length = plan.length)
    ∧ (∀ rec ∈ (execute_plan env plan).trace,
        (rec.raised ≠ [] → rec.stepSuccessful = false)
        ∧ (rec.branchSignal = none → rec.processed = rec.actionsTotal)) := by
  refine ⟨⟨rfl, rfl, runPlanAux_length env plan 0 false⟩, ?_⟩
  intro rec h
  have := mem_runPlanAux env plan 0 false rec h
  exact ⟨this.2.2.1, this.2.1⟩

/-- C6 witness: with every dispatch raising, all three steps still run and
each records its failure. -/
theorem C6_witness :
    ((execute_plan envAllErr demoPlan).success = true
      ∧ (execute_plan envAllErr demoPlan).error = none
      ∧ (execute_plan envAllErr demoPlan).trace.length = demoPlan.length)
    ∧ (∀ rec ∈ (execute_plan envAllErr demoPlan).trace,
        (rec.raised ≠ [] → rec.stepSuccessful = false)
        ∧ (rec.branchSignal = none → rec.processed = rec.actionsTotal)) :=
  C6_per_action_failures_contained demoPlan envAllErr

/-- C7: the aggregate success flag is true whenever the step loop completes,
whatever the per-step outcomes; the per-step flag only gates the end-of-step
screenshot; concretely, a run whose every action raises still returns
success true with every step marked unsuccessful. -/
theorem C7_success_flag_ignores_steps (plan : List PlanStep) (env : ExecEnv) :
    (execute_plan env plan).success = true
    ∧ (∀ rec ∈ (execute_plan env plan).trace,
        rec.screenshotTaken = (rec.stepSuccessful && rec.loginRelatedStep))
    ∧ ((execute_plan envAllErr demoPlan).success = true
        ∧ ∀ rec ∈ (execute_plan envAllErr demoPlan).trace,
          rec.stepSuccessful = false ∧ rec.raised ≠ []) := by
  refine ⟨rfl, ?_, by decide⟩
  intro rec h
  exact (mem_runPlanAux env plan 0 false rec h).2.2.2

/-- The environment of the branch scenario: the first step's only action
fires a branch to step 3, everything else succeeds. -/
def branchEnv : ExecEnv :=
  { isLoginAtStep := fun _ => false
  , isLoginAtAction := fun _ _ => false
  , isLoginInFlow := fun _ _ => false
  , dispatch := fun i _ => if i = 0 then .branch 3 else .ok
  , loginRelatedPage := fun _ => false }

/-- A plan whose first step branches to step 3, past step 2. -/
def branchPlan : List PlanStep :=
  [ { number := 1, goal := "Check the board state"
    , actions := ["if_url_contains('/issues', proceed_to_step=3)"] }
  , { number := 2, goal := "Open the middle page", actions := ["click('text=Alpha')"] }
  , { number := 3, goal := "Open the final page", actions := ["click('text=Beta')"] } ]

/-- C1 is a code bug: the branch signal proceed_to_step=3 fired from step 1
does not reposition the for loop — step 2 is still processed (its action is
dispatched) before step 3, where the claim and the source's own Skipping to
step message require execution to resume at step 3. -/
theorem C1_branch_not_goto :
    ((execute_plan branchEnv branchPlan).trace.map fun r => r.number) = [1, 2, 3]
    ∧ ((execute_plan branchEnv branchPlan).trace.map fun r => r.branchSignal)
        = [some 3, none, none]
    ∧ ((execute_plan branchEnv branchPlan).trace.map fun r => r.dispatched)
        = [[0], [0], [0]] := by
  refine ⟨by decide, by decide, by decide⟩

/-- C10 amended: is_login_page returns True exactly when the lowercased URL
contains one of the login-path keywords, and False in every other case,
internal errors included; the rendered input fields are irrelevant — the
email/password detection branch is dead (its awaited Locator raises a
TypeError swallowed by the bare except on every indicator), so two pages
sharing a URL get the same verdict whatever fields either shows. -/
theorem C10_login_detection_url_only : ∀ p : LoginProbe,
    (is_login_page p = true ↔ ∃ kw ∈ loginPaths, strIn kw (lowerStr p.url) = true)
    ∧ ∀ inputs' : List InputEl,
        is_login_page { inputs := inputs', url := p.url } = is_login_page p := by
  intro p
  refine ⟨?_, fun inputs' => rfl⟩
  simp [is_login_page, anyKeyword, List.any_eq_true]

end PlanEngine
